import Mathlib

/-!
Shallow embedding of the core of `src/benchmark-simple.ts` from the
d1-binding-vs-http-benchmark repository: the statistics calculator
(`calculateStats`), the report builder (`generateReport`), the sample
recorder (`measureTime`) and the phase orchestrator (`runFullBenchmark`),
together with proofs and refutations of the specification's claims.

Durations and statistics are JavaScript numbers in the source; they are
modelled as rationals (`ℚ`).  The one non-rational quantity, the standard
deviation `Math.sqrt(variance)`, is tracked through its square
(field `stdDevSq` below); `Math.sqrt` is strictly monotone on nonnegative
inputs, so equality and ordering facts transfer.  JavaScript division,
which produces `Infinity`/`NaN` on zero denominators, is modelled by
`JSNum`/`jsDiv`.
-/

namespace D1Bench

/-- The backend tag: `"binding" | "http"` in the source. -/
inductive Approach where
  | binding : Approach
  | http : Approach
deriving DecidableEq, Repr

/-- One measured operation instance (`interface BenchmarkResult`). -/
structure BenchmarkResult where
  operation : String
  queryType : String
  description : String
  sqlQuery : String
  approach : Approach
  duration : ℚ
  recordsAffected : Option Nat
  success : Bool
  error : Option String
deriving DecidableEq, Repr

/-- The duration statistics produced by `calculateStats`
(`Omit<BenchmarkStats, "totalOperations" | "successRate">` in the source).
`stdDevSq` is the square of the source's `stdDev` field, i.e. the
population variance (the source stores `Math.sqrt` of it). -/
structure DurationStats where
  avg : ℚ
  median : ℚ
  p95 : ℚ
  p99 : ℚ
  min : ℚ
  max : ℚ
  stdDevSq : ℚ
deriving DecidableEq, Repr

/-- Embeds `interface BenchmarkStats`: the duration statistics plus the operation
count and the success rate. -/
structure BenchmarkStats extends DurationStats where
  totalOperations : Nat
  successRate : ℚ
deriving DecidableEq, Repr

/-- A JavaScript number as far as division is concerned: finite rational,
positive or negative infinity, or NaN. -/
inductive JSNum where
  | fin : ℚ → JSNum
  | posInf : JSNum
  | negInf : JSNum
  | nan : JSNum
deriving DecidableEq, Repr

/-- JavaScript division `a / b`: ordinary division for a nonzero
denominator, signed infinity for a nonzero numerator over zero, and NaN
for `0 / 0`. -/
def jsDiv (a b : ℚ) : JSNum :=
  if b = 0 then
    if 0 < a then JSNum.posInf else if a < 0 then JSNum.negInf else JSNum.nan
  else
    JSNum.fin (a / b)

/-- Embeds `calculateStats(durations)` from the source, over `ℚ`.

* empty input returns all zeros;
* `sorted` is the input sorted ascending (`[...durations].sort((a, b) => a - b)`);
* `avg` is `durations.reduce((sum, d) => sum + d, 0) / durations.length`;
* `median` averages the two middle elements for even length, takes the
  middle element for odd length;
* `p95`/`p99` embed `sorted[idx] || sorted[sorted.length - 1]`: the
  fallback fires when the indexed value is absent *or falsy* (i.e. `0`),
  which the `if ... = 0` branch captures (`List.getD` with default `0`
  also yields `0` out of range, matching `undefined` being falsy);
* `stdDevSq` is the population variance
  (`durations.reduce((sum, d) => sum + Math.pow(d - avg, 2), 0) / durations.length`),
  the square of the source's `stdDev = Math.sqrt(variance)`. -/
def calculateStats (durations : List ℚ) : DurationStats :=
  if durations.length = 0 then
    { avg := 0, median := 0, p95 := 0, p99 := 0, min := 0, max := 0, stdDevSq := 0 }
  else
    let sorted := durations.insertionSort (· ≤ ·)
    let avg := durations.sum / (durations.length : ℚ)
    let median :=
      if sorted.length % 2 = 0 then
        (sorted.getD (sorted.length / 2 - 1) 0 + sorted.getD (sorted.length / 2) 0) / 2
      else
        sorted.getD (sorted.length / 2) 0
    let p95Index := sorted.length * 95 / 100
    let p99Index := sorted.length * 99 / 100
    let variance := (durations.map (fun d => (d - avg) ^ 2)).sum / (durations.length : ℚ)
    { avg := avg
      median := median
      p95 :=
        if sorted.getD p95Index 0 = 0 then sorted.getD (sorted.length - 1) 0
        else sorted.getD p95Index 0
      p99 :=
        if sorted.getD p99Index 0 = 0 then sorted.getD (sorted.length - 1) 0
        else sorted.getD p99Index 0
      min := sorted.getD 0 0
      max := sorted.getD (sorted.length - 1) 0
      stdDevSq := variance }

/-- Attach an operation count and a success rate to duration statistics —
the source's spread `{ ...stats, totalOperations, successRate }`. -/
def withCounts (c : DurationStats) (totalOperations : Nat) (successRate : ℚ) :
    BenchmarkStats :=
  { toDurationStats := c, totalOperations := totalOperations, successRate := successRate }

/-- The `summary` object of `BenchmarkSummary` in the source. -/
structure SummaryPart where
  binding : BenchmarkStats
  http : BenchmarkStats
  speedupFactor : JSNum
  medianSpeedup : JSNum
  p95Speedup : JSNum
deriving DecidableEq, Repr

/-- One entry of `queryTypeResults` in the source. -/
structure QueryTypeEntry where
  binding : BenchmarkStats
  http : BenchmarkStats
  speedup : JSNum
deriving DecidableEq, Repr

/-- The value returned by `generateReport`.  The source stores
`queryTypeResults` as a record keyed by the query types occurring in the
log; it is modelled as a function from query type to an optional entry
(absent key ↦ `none`; in the source an absent query type has empty
partitions, which fail the guard, so the two models agree). -/
structure BenchmarkReport where
  results : List BenchmarkResult
  queryTypeResults : String → Option QueryTypeEntry
  summary : SummaryPart

/-- Embeds `generateReport()` from the source, as a function of the run log
`this.results`. -/
def generateReport (results : List BenchmarkResult) : BenchmarkReport :=
  let bindingResults := results.filter fun r => decide (r.approach = Approach.binding) && r.success
  let httpResults := results.filter fun r => decide (r.approach = Approach.http) && r.success
  let bindingDurations := bindingResults.map fun r => r.duration
  let httpDurations := httpResults.map fun r => r.duration
  let bindingStats := calculateStats bindingDurations
  let httpStats := calculateStats httpDurations
  let bindingAll := results.filter fun r => decide (r.approach = Approach.binding)
  let httpAll := results.filter fun r => decide (r.approach = Approach.http)
  let bindingSuccessRate : ℚ :=
    if 0 < bindingAll.length then (bindingResults.length : ℚ) / (bindingAll.length : ℚ) else 0
  let httpSuccessRate : ℚ :=
    if 0 < httpAll.length then (httpResults.length : ℚ) / (httpAll.length : ℚ) else 0
  let queryTypeResults : String → Option QueryTypeEntry := fun queryType =>
    let bindingForType := results.filter fun r =>
      decide (r.queryType = queryType) && decide (r.approach = Approach.binding) && r.success
    let httpForType := results.filter fun r =>
      decide (r.queryType = queryType) && decide (r.approach = Approach.http) && r.success
    if 0 < bindingForType.length ∧ 0 < httpForType.length then
      let bindingStatsForType := calculateStats (bindingForType.map fun r => r.duration)
      let httpStatsForType := calculateStats (httpForType.map fun r => r.duration)
      some
        { binding :=
            withCounts bindingStatsForType bindingForType.length
              ((bindingForType.length : ℚ) /
                ((results.filter fun r =>
                  decide (r.queryType = queryType) &&
                    decide (r.approach = Approach.binding)).length : ℚ))
          http :=
            withCounts httpStatsForType httpForType.length
              ((httpForType.length : ℚ) /
                ((results.filter fun r =>
                  decide (r.queryType = queryType) &&
                    decide (r.approach = Approach.http)).length : ℚ))
          speedup :=
            if 0 < httpStatsForType.avg then jsDiv httpStatsForType.avg bindingStatsForType.avg
            else JSNum.fin 0 }
    else none
  { results := results
    queryTypeResults := queryTypeResults
    summary :=
      { binding := withCounts bindingStats bindingAll.length bindingSuccessRate
        http := withCounts httpStats httpAll.length httpSuccessRate
        speedupFactor :=
          if 0 < httpStats.avg then jsDiv httpStats.avg bindingStats.avg else JSNum.fin 0
        medianSpeedup :=
          if 0 < httpStats.median then jsDiv httpStats.median bindingStats.median
          else JSNum.fin 0
        p95Speedup :=
          if 0 < httpStats.p95 then jsDiv httpStats.p95 bindingStats.p95 else JSNum.fin 0 } }

/-- The outcome of one database call, as observed by the harness: the two
drivers are opaque external backends, so each call's outcome is an input
of the model.  `ok` carries the affected-record count that the source
reads off the result value (`Array.isArray(result)` ↦ its length,
`"changes" in result` ↦ that count, otherwise absent); `err` carries the
thrown error's message text. -/
inductive DbOutcome where
  | ok : Option Nat → DbOutcome
  | err : String → DbOutcome
deriving DecidableEq, Repr

/-- The external environment of a run: the stream of outcomes of the
successive database calls, and the stream of successive
`performance.now()` readings. -/
structure World where
  dbOutcomes : List DbOutcome
  clock : List ℚ
deriving DecidableEq, Repr

/-- The benchmark object's state: the run log `this.results` plus the
environment streams. -/
structure BState where
  results : List BenchmarkResult
  world : World
deriving DecidableEq, Repr

/-- Consume the next database-call outcome (an exhausted stream reads as
a success, a modelling default only). -/
def World.nextDb (w : World) : DbOutcome × World :=
  (w.dbOutcomes.headD (DbOutcome.ok none), { w with dbOutcomes := w.dbOutcomes.tail })

/-- Consume the next `performance.now()` reading. -/
def World.nextClock (w : World) : ℚ × World :=
  (w.clock.headD 0, { w with clock := w.clock.tail })

/-- Embeds `measureTime(...)` from the source: read the clock, run the wrapped
operation, read the clock again; on success build a successful record, on
failure catch the error and build a failed record with the same duration
computation; in both cases push the record onto `this.results` and return
it. -/
def measureTime (operation queryType description sqlQuery : String) (approach : Approach)
    (s : BState) : BenchmarkResult × BState :=
  let (start, w1) := s.world.nextClock
  let (outcome, w2) := w1.nextDb
  let (stop, w3) := w2.nextClock
  match outcome with
  | DbOutcome.ok recordsAffected =>
    let r : BenchmarkResult :=
      { operation := operation, queryType := queryType, description := description
        sqlQuery := sqlQuery, approach := approach, duration := stop - start
        recordsAffected := recordsAffected, success := true, error := none }
    (r, { results := s.results ++ [r], world := w3 })
  | DbOutcome.err msg =>
    let r : BenchmarkResult :=
      { operation := operation, queryType := queryType, description := description
        sqlQuery := sqlQuery, approach := approach, duration := stop - start
        recordsAffected := none, success := false, error := some msg }
    (r, { results := s.results ++ [r], world := w3 })

/-- A direct (unmeasured) `await db.run(...)`: not wrapped in
`measureTime`, so a failed call throws — modelled by `Except.error`. -/
def dbRun (s : BState) : Except String BState :=
  let (outcome, w) := s.world.nextDb
  match outcome with
  | DbOutcome.ok _ => Except.ok { s with world := w }
  | DbOutcome.err msg => Except.error msg

/-- Runs `n` successive direct database calls, stopping at the first failure. -/
def dbRunN : Nat → BState → Except String BState
  | 0, s => Except.ok s
  | n + 1, s =>
    match dbRun s with
    | Except.error e => Except.error e
    | Except.ok s1 => dbRunN n s1

/-- Embeds `cleanDatabase()`: two direct calls
(`DELETE FROM sessions`, `DELETE FROM users`). -/
def cleanDatabase (s : BState) : Except String BState :=
  match dbRun s with
  | Except.error e => Except.error e
  | Except.ok s1 => dbRun s1

/-- Embeds `seedData(userCount)`: `cleanDatabase()` first, then one direct bulk
insert per batch of 100 users, then one per batch of 100 sessions, where
`sessionCount = Math.floor(userCount * 0.3)`.  The interpolated SQL text
of each insert does not affect any claim and is not modelled. -/
def seedData (userCount : Nat) (s : BState) : Except String BState :=
  match cleanDatabase s with
  | Except.error e => Except.error e
  | Except.ok s1 =>
    match dbRunN ((userCount + 99) / 100) s1 with
    | Except.error e => Except.error e
    | Except.ok s2 => dbRunN ((userCount * 3 / 10 + 99) / 100) s2

/-- Embeds `runWarmup()`: 5 iterations of one direct call per backend — 10
direct calls, none of them measured or caught. -/
def runWarmup (s : BState) : Except String BState :=
  dbRunN 10 s

/-- One query suite: `iterations` loop turns, each measuring the binding
call then the http call through `measureTime`. -/
def runSuite (opBase queryType description sqlQuery : String) (iterations : Nat)
    (s : BState) : BState :=
  (List.range iterations).foldl
    (fun s1 i =>
      let s2 := (measureTime (opBase ++ toString i) queryType description sqlQuery
        Approach.binding s1).2
      (measureTime (opBase ++ toString i) queryType description sqlQuery
        Approach.http s2).2)
    s

/-- Embeds `runQueryBenchmarks(iterations)`: the six suites in source order.
Every operation goes through `measureTime`, so this phase never throws —
reflected in the return type.  The SQL display texts of the multi-line
queries are abbreviated; no claim depends on them. -/
def runQueryBenchmarks (iterations : Nat) (s : BState) : BState :=
  let s1 := runSuite "simple_select_" "Simple SELECT"
    "Basic data retrieval with LIMIT - fetches user records"
    "SELECT id, name, email FROM users LIMIT 20" iterations s
  let s2 := runSuite "filtered_select_" "Filtered SELECT"
    "WHERE clause filtering - finds verified users with conditions"
    "SELECT * FROM users WHERE email_verified = 1 AND is_anonymous = 0 LIMIT 30" iterations s1
  let s3 := runSuite "join_query_" "JOIN Operations"
    "INNER JOIN between users and sessions - relational data retrieval"
    "SELECT ... INNER JOIN sessions ... LIMIT 25" iterations s2
  let s4 := runSuite "aggregation_" "Aggregation"
    "COUNT and GROUP BY operations - analytics-style queries"
    "SELECT ... COUNT ... GROUP BY u.is_anonymous ..." iterations s3
  let s5 := runSuite "bulk_insert_" "Bulk INSERT"
    "Insert multiple records in single query - writing data efficiently"
    "INSERT INTO users ... VALUES ..." iterations s4
  runSuite "bulk_select_" "Bulk SELECT"
    "Retrieve large dataset with JOIN - getting chunks of data efficiently"
    "SELECT ... LEFT JOIN sessions ... LIMIT 200" iterations s5

/-- Embeds `runFullBenchmark(userCount, queryIterations)`: clear the log, then
warmup → seed → query benchmarks → cleanup → report.  The three
direct-call phases propagate a failure (`await` of a rejected call
throws out of the method); the query phase cannot fail. -/
def runFullBenchmark (userCount queryIterations : Nat) (s : BState) :
    Except String (BenchmarkReport × BState) :=
  let s0 : BState := { s with results := [] }
  match runWarmup s0 with
  | Except.error e => Except.error e
  | Except.ok s1 =>
    match seedData userCount s1 with
    | Except.error e => Except.error e
    | Except.ok s2 =>
      let s3 := runQueryBenchmarks queryIterations s2
      match cleanDatabase s3 with
      | Except.error e => Except.error e
      | Except.ok s4 => Except.ok (generateReport s4.results, s4)

/-- The p95 selection rule exactly as claim C3 states it: the element of
the ascending-sorted sequence at index `floor(n * 0.95)`, replaced by the
last element only when the computed index runs past the end. -/
def specP95 (l : List ℚ) : ℚ :=
  let sorted := l.insertionSort (· ≤ ·)
  let idx := l.length * 95 / 100
  if idx < sorted.length then sorted.getD idx 0 else sorted.getD (sorted.length - 1) 0

/-- A concrete log whose binding partition has no successful record (one
failed binding attempt) while the http partition has one successful
record of duration 5. -/
def speedupFailLog : List BenchmarkResult :=
  [{ operation := "o0", queryType := "Simple SELECT", description := "d", sqlQuery := "q",
     approach := Approach.binding, duration := 1, recordsAffected := none,
     success := false, error := some "e" },
   { operation := "o0", queryType := "Simple SELECT", description := "d", sqlQuery := "q",
     approach := Approach.http, duration := 5, recordsAffected := none,
     success := true, error := none }]

/-- A concrete log with one successful binding record (duration 2) and
one successful http record (duration 6) of the same query type. -/
def pairedLog : List BenchmarkResult :=
  [{ operation := "o0", queryType := "Simple SELECT", description := "d", sqlQuery := "q",
     approach := Approach.binding, duration := 2, recordsAffected := none,
     success := true, error := none },
   { operation := "o0", queryType := "Simple SELECT", description := "d", sqlQuery := "q",
     approach := Approach.http, duration := 6, recordsAffected := none,
     success := true, error := none }]

/-- A concrete log like `pairedLog` but with an additional failed binding
attempt of the same query type. -/
def mixedLog : List BenchmarkResult :=
  [{ operation := "o0", queryType := "Simple SELECT", description := "d", sqlQuery := "q",
     approach := Approach.binding, duration := 2, recordsAffected := none,
     success := true, error := none },
   { operation := "o0", queryType := "Simple SELECT", description := "d", sqlQuery := "q",
     approach := Approach.http, duration := 6, recordsAffected := none,
     success := true, error := none },
   { operation := "o1", queryType := "Simple SELECT", description := "d", sqlQuery := "q",
     approach := Approach.binding, duration := 4, recordsAffected := none,
     success := false, error := some "e" }]

/-- The per-query-type entry that `generateReport mixedLog` produces for
query type "Simple SELECT". -/
def mixedLogEntry : QueryTypeEntry :=
  { binding := withCounts
      { avg := 2, median := 2, p95 := 2, p99 := 2, min := 2, max := 2, stdDevSq := 0 } 1 (1 / 2)
    http := withCounts
      { avg := 6, median := 6, p95 := 6, p99 := 6, min := 6, max := 6, stdDevSq := 0 } 1 1
    speedup := JSNum.fin 3 }

/-- A benchmark state with an empty log, no clock readings, and `k`
successful database-call outcomes in store. -/
def okState (k : Nat) : BState :=
  { results := []
    world := { dbOutcomes := List.replicate k (DbOutcome.ok none), clock := [] } }

/-- A benchmark state with an empty log, clock readings 0 and 2, and one
successful database-call outcome in store. -/
def recorderState : BState :=
  { results := []
    world := { dbOutcomes := [DbOutcome.ok none], clock := [0, 2] } }

end D1Bench

namespace D1Bench

/-- C9: `calculateStats` on the empty duration sequence returns all-zero
statistics (and, being a total function, raises no error). -/
theorem calculateStats_empty :
    calculateStats [] =
      { avg := 0, median := 0, p95 := 0, p99 := 0, min := 0, max := 0, stdDevSq := 0 } :=
  rfl

/-- C7: `calculateStats` is order-invariant — permuting the input
durations leaves every statistic unchanged. -/
theorem calculateStats_perm (l l' : List ℚ) (h : l.Perm l') :
    calculateStats l = calculateStats l' := by
  have hlen : l.length = l'.length := h.length_eq
  have hsum : l.sum = l'.sum := h.sum_eq
  have hsorted : l.insertionSort (· ≤ ·) = l'.insertionSort (· ≤ ·) :=
    List.eq_of_perm_of_sorted
      ((List.perm_insertionSort _ l).trans (h.trans (List.perm_insertionSort _ l').symm))
      (List.sorted_insertionSort _ l) (List.sorted_insertionSort _ l')
  have havg : l.sum / (l.length : ℚ) = l'.sum / (l'.length : ℚ) := by
    rw [hlen, hsum]
  have hvar : ∀ a : ℚ,
      (l.map (fun d => (d - a) ^ 2)).sum = (l'.map (fun d => (d - a) ^ 2)).sum :=
    fun a => (h.map (fun d => (d - a) ^ 2)).sum_eq
  unfold calculateStats
  rw [hlen, hsorted, hsum]
  simp only [hvar]

/-- Witness for C7 at a concrete permutation. -/
theorem calculateStats_perm_witness :
    calculateStats [(1 : ℚ), 2, 3] = calculateStats [3, 1, 2] :=
  calculateStats_perm _ _ (by decide)

/-- In a `≤`-sorted list of rationals, `getD` (default `0`) is monotone in
the index while the index stays in range. -/
lemma sorted_getD_mono (xs : List ℚ) (hs : List.Sorted (· ≤ ·) xs) {i j : ℕ}
    (hij : i ≤ j) (hj : j < xs.length) : xs.getD i 0 ≤ xs.getD j 0 := by
  have hi : i < xs.length := Nat.lt_of_le_of_lt hij hj
  rcases Nat.lt_or_ge i j with hlt | hge
  · have h := hs.rel_get_of_lt (a := ⟨i, hi⟩) (b := ⟨j, hj⟩) (Fin.mk_lt_mk.mpr hlt)
    rw [List.getD_eq_getElem xs 0 hi, List.getD_eq_getElem xs 0 hj]
    simpa [List.get_eq_getElem] using h
  · have heq : i = j := Nat.le_antisymm hij hge
    subst heq
    exact le_refl _

/-- An in-range `getD` value is a member of the list. -/
lemma getD_mem (xs : List ℚ) {i : ℕ} (hi : i < xs.length) : xs.getD i 0 ∈ xs := by
  rw [List.getD_eq_getElem xs 0 hi]
  exact List.getElem_mem hi

/-- In a `≤`-sorted list, the first element bounds every member below. -/
lemma sorted_first_le (xs : List ℚ) (hs : List.Sorted (· ≤ ·) xs) {v : ℚ}
    (hv : v ∈ xs) : xs.getD 0 0 ≤ v := by
  obtain ⟨⟨k, hk⟩, rfl⟩ := List.mem_iff_get.mp hv
  rw [List.get_eq_getElem, ← List.getD_eq_getElem xs 0 hk]
  exact sorted_getD_mono xs hs (Nat.zero_le k) hk

/-- In a `≤`-sorted list, the last element bounds every member above. -/
lemma sorted_le_last (xs : List ℚ) (hs : List.Sorted (· ≤ ·) xs) {v : ℚ}
    (hv : v ∈ xs) : v ≤ xs.getD (xs.length - 1) 0 := by
  obtain ⟨⟨k, hk⟩, rfl⟩ := List.mem_iff_get.mp hv
  rw [List.get_eq_getElem, ← List.getD_eq_getElem xs 0 hk]
  exact sorted_getD_mono xs hs (by omega) (by omega)

/-- Evaluation of `calculateStats` on a nonempty input, as one record whose
fields are in terms of the sorted list. -/
lemma calculateStats_nonempty (l : List ℚ) (hn0 : ¬ l.length = 0) :
    calculateStats l =
      { avg := l.sum / (l.length : ℚ)
        median :=
          if (l.insertionSort (· ≤ ·)).length % 2 = 0 then
            ((l.insertionSort (· ≤ ·)).getD ((l.insertionSort (· ≤ ·)).length / 2 - 1) 0 +
              (l.insertionSort (· ≤ ·)).getD ((l.insertionSort (· ≤ ·)).length / 2) 0) / 2
          else (l.insertionSort (· ≤ ·)).getD ((l.insertionSort (· ≤ ·)).length / 2) 0
        p95 :=
          if (l.insertionSort (· ≤ ·)).getD ((l.insertionSort (· ≤ ·)).length * 95 / 100) 0 = 0
          then (l.insertionSort (· ≤ ·)).getD ((l.insertionSort (· ≤ ·)).length - 1) 0
          else (l.insertionSort (· ≤ ·)).getD ((l.insertionSort (· ≤ ·)).length * 95 / 100) 0
        p99 :=
          if (l.insertionSort (· ≤ ·)).getD ((l.insertionSort (· ≤ ·)).length * 99 / 100) 0 = 0
          then (l.insertionSort (· ≤ ·)).getD ((l.insertionSort (· ≤ ·)).length - 1) 0
          else (l.insertionSort (· ≤ ·)).getD ((l.insertionSort (· ≤ ·)).length * 99 / 100) 0
        min := (l.insertionSort (· ≤ ·)).getD 0 0
        max := (l.insertionSort (· ≤ ·)).getD ((l.insertionSort (· ≤ ·)).length - 1) 0
        stdDevSq :=
          (l.map fun d => (d - l.sum / (l.length : ℚ)) ^ 2).sum / (l.length : ℚ) } := by
  unfold calculateStats
  rw [if_neg hn0]

/-- C2 (amended): for every non-empty sequence of strictly positive
durations, `min ≤ p95 ≤ p99 ≤ max` and `min ≤ median ≤ max`.  (For merely
non-negative durations `p95 ≤ p99` can fail, because the source's
`sorted[idx] || sorted[last]` fallback fires on the falsy value `0`; see
the counterexample.) -/
theorem calculateStats_percentile_bounds (l : List ℚ) (hne : l ≠ [])
    (hpos : ∀ x ∈ l, 0 < x) :
    (calculateStats l).min ≤ (calculateStats l).p95 ∧
    (calculateStats l).p95 ≤ (calculateStats l).p99 ∧
    (calculateStats l).p99 ≤ (calculateStats l).max ∧
    (calculateStats l).min ≤ (calculateStats l).median ∧
    (calculateStats l).median ≤ (calculateStats l).max := by
  have hn0 : ¬ l.length = 0 := by simpa [List.length_eq_zero] using hne
  set xs := l.insertionSort (· ≤ ·) with hxs
  have hs : List.Sorted (· ≤ ·) xs := List.sorted_insertionSort _ l
  have hlen : xs.length = l.length := List.length_insertionSort _ l
  have hxlen : 0 < xs.length := by rw [hlen]; exact Nat.pos_of_ne_zero hn0
  have hxpos : ∀ x ∈ xs, 0 < x := fun x hx =>
    hpos x ((List.mem_insertionSort _).mp hx)
  rw [calculateStats_nonempty l hn0]
  rw [← hxs]
  have hi95 : xs.length * 95 / 100 < xs.length := by
    rw [Nat.div_lt_iff_lt_mul (by norm_num : 0 < 100)]
    exact mul_lt_mul_of_pos_left (by norm_num) hxlen
  have hi99 : xs.length * 99 / 100 < xs.length := by
    rw [Nat.div_lt_iff_lt_mul (by norm_num : 0 < 100)]
    exact mul_lt_mul_of_pos_left (by norm_num) hxlen
  have h9599 : xs.length * 95 / 100 ≤ xs.length * 99 / 100 :=
    Nat.div_le_div_right (Nat.mul_le_mul_left _ (by norm_num))
  have h95ne : ¬ xs.getD (xs.length * 95 / 100) 0 = 0 :=
    ne_of_gt (hxpos _ (getD_mem xs hi95))
  have h99ne : ¬ xs.getD (xs.length * 99 / 100) 0 = 0 :=
    ne_of_gt (hxpos _ (getD_mem xs hi99))
  rw [if_neg h95ne, if_neg h99ne]
  refine ⟨?_, ?_, ?_, ?_, ?_⟩
  · exact sorted_getD_mono xs hs (Nat.zero_le _) hi95
  · exact sorted_getD_mono xs hs h9599 hi99
  · exact sorted_getD_mono xs hs (by omega) (by omega)
  · by_cases hpar : xs.length % 2 = 0
    · rw [if_pos hpar]
      have ha : xs.getD 0 0 ≤ xs.getD (xs.length / 2 - 1) 0 :=
        sorted_getD_mono xs hs (Nat.zero_le _) (by omega)
      have hb : xs.getD 0 0 ≤ xs.getD (xs.length / 2) 0 :=
        sorted_getD_mono xs hs (Nat.zero_le _) (by omega)
      linarith
    · rw [if_neg hpar]
      exact sorted_getD_mono xs hs (Nat.zero_le _) (by omega)
  · by_cases hpar : xs.length % 2 = 0
    · rw [if_pos hpar]
      have ha : xs.getD (xs.length / 2 - 1) 0 ≤ xs.getD (xs.length - 1) 0 :=
        sorted_getD_mono xs hs (by omega) (by omega)
      have hb : xs.getD (xs.length / 2) 0 ≤ xs.getD (xs.length - 1) 0 :=
        sorted_getD_mono xs hs (by omega) (by omega)
      linarith
    · rw [if_neg hpar]
      exact sorted_getD_mono xs hs (by omega) (by omega)

/-- Witness for C2 (amended) at the positive sequence `[1, 2, 3]`. -/
theorem calculateStats_percentile_bounds_witness :
    (calculateStats [(1 : ℚ), 2, 3]).min ≤ (calculateStats [(1 : ℚ), 2, 3]).p95 ∧
    (calculateStats [(1 : ℚ), 2, 3]).p95 ≤ (calculateStats [(1 : ℚ), 2, 3]).p99 ∧
    (calculateStats [(1 : ℚ), 2, 3]).p99 ≤ (calculateStats [(1 : ℚ), 2, 3]).max ∧
    (calculateStats [(1 : ℚ), 2, 3]).min ≤ (calculateStats [(1 : ℚ), 2, 3]).median ∧
    (calculateStats [(1 : ℚ), 2, 3]).median ≤ (calculateStats [(1 : ℚ), 2, 3]).max :=
  calculateStats_percentile_bounds [1, 2, 3] (by decide) (by decide)

/-- Counterexample to C2 as stated: on the non-negative duration sequence
of 96 zeros, 4 ones and one 2 (length 101), the computed p95 index 95
lands on a zero, so the `||` fallback returns the maximum 2 as p95, while
p99 index 99 lands on a 1 — hence `p95 ≤ p99` fails. -/
theorem calculateStats_p95_gt_p99_counterexample :
    ¬ ((calculateStats (List.replicate 96 (0 : ℚ) ++ List.replicate 4 1 ++ [2])).p95 ≤
      (calculateStats (List.replicate 96 (0 : ℚ) ++ List.replicate 4 1 ++ [2])).p99) := by
  decide

/-- Counterexample to C3 as stated: on 20 zeros followed by a 5
(length 21), the p95 index 19 is in range and the sorted sequence's
element there is 0, so the claim's rule yields 0 — but the code's `||`
fallback treats 0 as falsy and returns the last element 5. -/
theorem calculateStats_p95_spec_counterexample :
    (calculateStats (List.replicate 20 (0 : ℚ) ++ [5])).p95 = 5 ∧
    specP95 (List.replicate 20 (0 : ℚ) ++ [5]) = 0 := by
  decide

/-- C3 (amended): on non-empty input, `calculateStats` returns the
arithmetic mean; the midpoint-average (even length) or middle-element
(odd length) median of the sorted sequence; p95/p99 equal to the sorted
sequence's element at index `floor(n * 0.95)` / `floor(n * 0.99)`,
replaced by the last element whenever that element is zero or the index
runs past the end (the code's `||` fallback fires on the falsy value `0`,
not only out of range); and the population variance as the square of the
standard deviation. -/
theorem calculateStats_formulas (l : List ℚ) (hne : l ≠ []) :
    (calculateStats l).avg = l.sum / (l.length : ℚ) ∧
    (calculateStats l).median =
      (if l.length % 2 = 0 then
        ((l.insertionSort (· ≤ ·)).getD (l.length / 2 - 1) 0 +
          (l.insertionSort (· ≤ ·)).getD (l.length / 2) 0) / 2
      else (l.insertionSort (· ≤ ·)).getD (l.length / 2) 0) ∧
    (calculateStats l).p95 =
      (if (l.insertionSort (· ≤ ·)).getD (l.length * 95 / 100) 0 ≠ 0 then
        (l.insertionSort (· ≤ ·)).getD (l.length * 95 / 100) 0
      else (l.insertionSort (· ≤ ·)).getD (l.length - 1) 0) ∧
    (calculateStats l).p99 =
      (if (l.insertionSort (· ≤ ·)).getD (l.length * 99 / 100) 0 ≠ 0 then
        (l.insertionSort (· ≤ ·)).getD (l.length * 99 / 100) 0
      else (l.insertionSort (· ≤ ·)).getD (l.length - 1) 0) ∧
    (calculateStats l).stdDevSq =
      (l.map fun d => (d - l.sum / (l.length : ℚ)) ^ 2).sum / (l.length : ℚ) := by
  have hn0 : ¬ l.length = 0 := by simpa [List.length_eq_zero] using hne
  have hlen : (l.insertionSort (· ≤ ·)).length = l.length :=
    List.length_insertionSort _ l
  rw [calculateStats_nonempty l hn0, hlen]
  refine ⟨rfl, rfl, ?_, ?_, rfl⟩
  · by_cases h : (l.insertionSort (· ≤ ·)).getD (l.length * 95 / 100) 0 = 0 <;>
      simp [h]
  · by_cases h : (l.insertionSort (· ≤ ·)).getD (l.length * 99 / 100) 0 = 0 <;>
      simp [h]

/-- Witness for C3 (amended) at `[1, 2, 3]`. -/
theorem calculateStats_formulas_witness :
    (calculateStats [(1 : ℚ), 2, 3]).avg = List.sum [(1 : ℚ), 2, 3] / (3 : ℚ) ∧
    (calculateStats [(1 : ℚ), 2, 3]).p95 =
      ([(1 : ℚ), 2, 3].insertionSort (· ≤ ·)).getD 2 0 := by
  have h := calculateStats_formulas [(1 : ℚ), 2, 3] (by decide)
  refine ⟨h.1, ?_⟩
  rw [h.2.2.1]
  decide

/-- C6: the report builder feeds only the successful records of each
backend partition to the stats calculator; each backend's success rate is
the successful count over the unfiltered attempt count; and a backend
with zero recorded attempts gets success rate 0. -/
theorem generateReport_partition (results : List BenchmarkResult) :
    ((generateReport results).summary.binding.toDurationStats =
      calculateStats ((results.filter fun r =>
        decide (r.approach = Approach.binding) && r.success).map fun r => r.duration)) ∧
    ((generateReport results).summary.http.toDurationStats =
      calculateStats ((results.filter fun r =>
        decide (r.approach = Approach.http) && r.success).map fun r => r.duration)) ∧
    (0 < (results.filter fun r => decide (r.approach = Approach.binding)).length →
      (generateReport results).summary.binding.successRate =
        ((results.filter fun r =>
          decide (r.approach = Approach.binding) && r.success).length : ℚ) /
        ((results.filter fun r => decide (r.approach = Approach.binding)).length : ℚ)) ∧
    ((results.filter fun r => decide (r.approach = Approach.binding)).length = 0 →
      (generateReport results).summary.binding.successRate = 0) ∧
    (0 < (results.filter fun r => decide (r.approach = Approach.http)).length →
      (generateReport results).summary.http.successRate =
        ((results.filter fun r =>
          decide (r.approach = Approach.http) && r.success).length : ℚ) /
        ((results.filter fun r => decide (r.approach = Approach.http)).length : ℚ)) ∧
    ((results.filter fun r => decide (r.approach = Approach.http)).length = 0 →
      (generateReport results).summary.http.successRate = 0) := by
  refine ⟨rfl, rfl, ?_, ?_, ?_, ?_⟩
  · intro h; exact if_pos h
  · intro h; exact if_neg (by omega)
  · intro h; exact if_pos h
  · intro h; exact if_neg (by omega)

/-- Witness for C6 at `pairedLog`. -/
theorem generateReport_partition_witness :
    0 < (pairedLog.filter fun r => decide (r.approach = Approach.binding)).length ∧
    (generateReport pairedLog).summary.binding.successRate =
      ((pairedLog.filter fun r =>
        decide (r.approach = Approach.binding) && r.success).length : ℚ) /
      ((pairedLog.filter fun r => decide (r.approach = Approach.binding)).length : ℚ) :=
  ⟨by decide, (generateReport_partition pairedLog).2.2.1 (by decide)⟩

/-- Case analysis of the source's guarded ratio
`numerator > 0 ? numerator / denominator : 0` under JavaScript division. -/
lemma guarded_jsDiv_cases (a b : ℚ) :
    (a ≤ 0 → (if 0 < a then jsDiv a b else JSNum.fin 0) = JSNum.fin 0) ∧
    (0 < a → b ≠ 0 → (if 0 < a then jsDiv a b else JSNum.fin 0) = JSNum.fin (a / b)) ∧
    (0 < a → b = 0 → (if 0 < a then jsDiv a b else JSNum.fin 0) = JSNum.posInf) ∧
    (if 0 < a then jsDiv a b else JSNum.fin 0) ≠ JSNum.nan := by
  unfold jsDiv
  by_cases ha : 0 < a
  · by_cases hb : b = 0
    · simp [ha, hb]
    · simp [ha, hb]
  · simp [ha]

/-- C1 (amended): every speedup ratio of the report — mean-, median- and
p95-based at summary level, mean-based per category — is the http
statistic divided by the binding statistic, with the guard on the
*numerator* (http) side: the ratio is 0 whenever the http statistic is
not positive; when the http statistic is positive and the binding
statistic is 0 the ratio is positive infinity (not 0); NaN never occurs. -/
theorem generateReport_speedup_guard (results : List BenchmarkResult) :
    (((generateReport results).summary.http.avg ≤ 0 →
        (generateReport results).summary.speedupFactor = JSNum.fin 0) ∧
      (0 < (generateReport results).summary.http.avg →
        (generateReport results).summary.binding.avg ≠ 0 →
        (generateReport results).summary.speedupFactor =
          JSNum.fin ((generateReport results).summary.http.avg /
            (generateReport results).summary.binding.avg)) ∧
      (0 < (generateReport results).summary.http.avg →
        (generateReport results).summary.binding.avg = 0 →
        (generateReport results).summary.speedupFactor = JSNum.posInf) ∧
      (generateReport results).summary.speedupFactor ≠ JSNum.nan) ∧
    (((generateReport results).summary.http.median ≤ 0 →
        (generateReport results).summary.medianSpeedup = JSNum.fin 0) ∧
      (0 < (generateReport results).summary.http.median →
        (generateReport results).summary.binding.median ≠ 0 →
        (generateReport results).summary.medianSpeedup =
          JSNum.fin ((generateReport results).summary.http.median /
            (generateReport results).summary.binding.median)) ∧
      (0 < (generateReport results).summary.http.median →
        (generateReport results).summary.binding.median = 0 →
        (generateReport results).summary.medianSpeedup = JSNum.posInf) ∧
      (generateReport results).summary.medianSpeedup ≠ JSNum.nan) ∧
    (((generateReport results).summary.http.p95 ≤ 0 →
        (generateReport results).summary.p95Speedup = JSNum.fin 0) ∧
      (0 < (generateReport results).summary.http.p95 →
        (generateReport results).summary.binding.p95 ≠ 0 →
        (generateReport results).summary.p95Speedup =
          JSNum.fin ((generateReport results).summary.http.p95 /
            (generateReport results).summary.binding.p95)) ∧
      (0 < (generateReport results).summary.http.p95 →
        (generateReport results).summary.binding.p95 = 0 →
        (generateReport results).summary.p95Speedup = JSNum.posInf) ∧
      (generateReport results).summary.p95Speedup ≠ JSNum.nan) ∧
    (∀ qt e, (generateReport results).queryTypeResults qt = some e →
      (e.http.avg ≤ 0 → e.speedup = JSNum.fin 0) ∧
      (0 < e.http.avg → e.binding.avg ≠ 0 →
        e.speedup = JSNum.fin (e.http.avg / e.binding.avg)) ∧
      (0 < e.http.avg → e.binding.avg = 0 → e.speedup = JSNum.posInf) ∧
      e.speedup ≠ JSNum.nan) := by
  refine ⟨guarded_jsDiv_cases _ _, guarded_jsDiv_cases _ _, guarded_jsDiv_cases _ _, ?_⟩
  intro qt e he
  simp only [generateReport] at he
  by_cases hc :
      0 < (results.filter fun r =>
        decide (r.queryType = qt) && decide (r.approach = Approach.binding) &&
          r.success).length ∧
      0 < (results.filter fun r =>
        decide (r.queryType = qt) && decide (r.approach = Approach.http) &&
          r.success).length
  · rw [if_pos hc] at he
    have he' := Option.some.inj he
    subst he'
    exact guarded_jsDiv_cases _ _
  · rw [if_neg hc] at he
    cases he

/-- Counterexample to C1 as stated: on `speedupFailLog` the binding
backend's mean statistic (the denominator) is 0, yet the mean-based
speedup ratio is positive infinity, not 0 — the source guards the
numerator, not the denominator. -/
theorem generateReport_speedup_guard_counterexample :
    (generateReport speedupFailLog).summary.binding.avg = 0 ∧
    (generateReport speedupFailLog).summary.speedupFactor = JSNum.posInf := by
  refine ⟨?_, ?_⟩ <;>
    simp [generateReport, calculateStats, withCounts, jsDiv, speedupFailLog]

/-- Witness for C1 (amended) at `pairedLog`, where both statistics are
positive and the ratio is an ordinary finite quotient. -/
theorem generateReport_speedup_guard_witness :
    (generateReport pairedLog).summary.speedupFactor =
      JSNum.fin ((generateReport pairedLog).summary.http.avg /
        (generateReport pairedLog).summary.binding.avg) := by
  have hpos : 0 < (generateReport pairedLog).summary.http.avg := by
    simp [generateReport, calculateStats, withCounts, pairedLog]
  have hne : (generateReport pairedLog).summary.binding.avg ≠ 0 := by
    simp [generateReport, calculateStats, withCounts, pairedLog]
  exact (generateReport_speedup_guard pairedLog).1.2.1 hpos hne

/-- Strictness of filtering: if some member of `l` satisfies `p` but not
`q`, the `p && q`-filtered list is strictly shorter than the
`p`-filtered one. -/
lemma length_filter_and_lt {α : Type} (p q : α → Bool) (l : List α) (r : α)
    (hr : r ∈ l) (hp : p r = true) (hq : q r = false) :
    (l.filter fun a => p a && q a).length < (l.filter p).length := by
  have h1 : (l.filter fun a => p a && q a) = (l.filter p).filter q := by
    rw [List.filter_filter]
    exact List.filter_congr fun a _ => Bool.and_comm (p a) (q a)
  rw [h1]
  have hrm : r ∈ l.filter p := List.mem_filter.mpr ⟨hr, hp⟩
  rcases Nat.lt_or_ge ((l.filter p).filter q).length (l.filter p).length with h | h
  · exact h
  · exfalso
    have heq : ((l.filter p).filter q).length = (l.filter p).length :=
      Nat.le_antisymm (List.length_filter_le q (l.filter p)) h
    have hall := List.filter_length_eq_length.mp heq
    have hqr := hall r hrm
    rw [hq] at hqr
    exact absurd hqr (by decide)

/-- C10: in the per-query-type breakdown each backend's
`totalOperations` counts only the successful records of that category and
backend, whereas the summary's `totalOperations` counts all attempts; so
whenever a category holds a failed record for a backend, that backend's
per-category `totalOperations` is strictly below the category's attempt
count for that backend. -/
theorem generateReport_totalOperations (results : List BenchmarkResult) (qt : String)
    (e : QueryTypeEntry) (he : (generateReport results).queryTypeResults qt = some e) :
    e.binding.totalOperations = (results.filter fun r =>
      decide (r.queryType = qt) && decide (r.approach = Approach.binding) &&
        r.success).length ∧
    e.http.totalOperations = (results.filter fun r =>
      decide (r.queryType = qt) && decide (r.approach = Approach.http) &&
        r.success).length ∧
    (generateReport results).summary.binding.totalOperations =
      (results.filter fun r => decide (r.approach = Approach.binding)).length ∧
    (generateReport results).summary.http.totalOperations =
      (results.filter fun r => decide (r.approach = Approach.http)).length ∧
    (∀ r ∈ results, r.queryType = qt → r.approach = Approach.binding → r.success = false →
      e.binding.totalOperations < (results.filter fun x =>
        decide (x.queryType = qt) && decide (x.approach = Approach.binding)).length) ∧
    (∀ r ∈ results, r.queryType = qt → r.approach = Approach.http → r.success = false →
      e.http.totalOperations < (results.filter fun x =>
        decide (x.queryType = qt) && decide (x.approach = Approach.http)).length) := by
  simp only [generateReport] at he
  by_cases hc :
      0 < (results.filter fun r =>
        decide (r.queryType = qt) && decide (r.approach = Approach.binding) &&
          r.success).length ∧
      0 < (results.filter fun r =>
        decide (r.queryType = qt) && decide (r.approach = Approach.http) &&
          r.success).length
  · rw [if_pos hc] at he
    have he' := Option.some.inj he
    subst he'
    refine ⟨rfl, rfl, rfl, rfl, ?_, ?_⟩
    · intro r hr hqt happ hsucc
      have h := length_filter_and_lt
        (fun x => decide (x.queryType = qt) && decide (x.approach = Approach.binding))
        (fun x => x.success) results r hr (by simp [hqt, happ]) (by simp [hsucc])
      calc (results.filter fun r =>
            decide (r.queryType = qt) && decide (r.approach = Approach.binding) &&
              r.success).length
          = (results.filter fun x =>
            (decide (x.queryType = qt) && decide (x.approach = Approach.binding)) &&
              x.success).length := rfl
        _ < _ := h
    · intro r hr hqt happ hsucc
      have h := length_filter_and_lt
        (fun x => decide (x.queryType = qt) && decide (x.approach = Approach.http))
        (fun x => x.success) results r hr (by simp [hqt, happ]) (by simp [hsucc])
      calc (results.filter fun r =>
            decide (r.queryType = qt) && decide (r.approach = Approach.http) &&
              r.success).length
          = (results.filter fun x =>
            (decide (x.queryType = qt) && decide (x.approach = Approach.http)) &&
              x.success).length := rfl
        _ < _ := h
  · rw [if_neg hc] at he
    cases he

/-- Witness for C10 at `mixedLog`, whose "Simple SELECT" category holds a
failed binding attempt: the per-category binding `totalOperations` (1) is
strictly below the category's binding attempt count (2). -/
theorem generateReport_totalOperations_witness :
    mixedLogEntry.binding.totalOperations <
      (mixedLog.filter fun x =>
        decide (x.queryType = "Simple SELECT") &&
          decide (x.approach = Approach.binding)).length := by
  have he : (generateReport mixedLog).queryTypeResults "Simple SELECT" =
      some mixedLogEntry := by
    simp [generateReport, calculateStats, withCounts, jsDiv, mixedLog, mixedLogEntry]
    norm_num
  exact (generateReport_totalOperations mixedLog "Simple SELECT" mixedLogEntry he).2.2.2.2.1
    { operation := "o1", queryType := "Simple SELECT", description := "d", sqlQuery := "q",
      approach := Approach.binding, duration := 4, recordsAffected := none,
      success := false, error := some "e" }
    (by decide) rfl rfl rfl

/-- C8: `generateReport` reads the log without consuming or mutating it —
the returned report embeds the log unchanged — and, being a pure function
of the log, two invocations on the same log yield identical reports. -/
theorem generateReport_pure (results : List BenchmarkResult) :
    (generateReport results).results = results ∧
    generateReport results = generateReport results :=
  ⟨rfl, rfl⟩

/-- C5: every `measureTime` call appends exactly one record to the run
log and returns that record; with a monotone clock its duration is
non-negative whether the operation succeeds or fails; on success the
record has `success = true` and no error, on failure `success = false`
and the error's message text. -/
theorem measureTime_spec (operation queryType description sqlQuery : String)
    (approach : Approach) (s : BState) (c0 c1 : ℚ) (cs : List ℚ)
    (hclock : s.world.clock = c0 :: c1 :: cs) (hmono : c0 ≤ c1) :
    (measureTime operation queryType description sqlQuery approach s).2.results =
      s.results ++ [(measureTime operation queryType description sqlQuery approach s).1] ∧
    (measureTime operation queryType description sqlQuery approach s).1.duration = c1 - c0 ∧
    0 ≤ (measureTime operation queryType description sqlQuery approach s).1.duration ∧
    (∀ ra, s.world.dbOutcomes.headD (DbOutcome.ok none) = DbOutcome.ok ra →
      (measureTime operation queryType description sqlQuery approach s).1.success = true ∧
      (measureTime operation queryType description sqlQuery approach s).1.error = none ∧
      (measureTime operation queryType description sqlQuery approach s).1.recordsAffected =
        ra) ∧
    (∀ msg, s.world.dbOutcomes.headD (DbOutcome.ok none) = DbOutcome.err msg →
      (measureTime operation queryType description sqlQuery approach s).1.success = false ∧
      (measureTime operation queryType description sqlQuery approach s).1.error =
        some msg) := by
  rcases hout : s.world.dbOutcomes.headD (DbOutcome.ok none) with ra | msg <;>
    rw [List.headD_eq_head?_getD] at hout <;>
    refine ⟨?_, ?_, ?_, ?_, ?_⟩ <;>
    simp [measureTime, World.nextClock, World.nextDb, hclock, hout, sub_nonneg, hmono]

/-- Witness for C5 at `recorderState` (clock readings 0 then 2, one
successful call): exactly one record is appended, its duration is the
non-negative 2 - 0, and it is marked successful with no error. -/
theorem measureTime_spec_witness :
    (measureTime "op" "Simple SELECT" "d" "q" Approach.binding recorderState).2.results =
      recorderState.results ++
        [(measureTime "op" "Simple SELECT" "d" "q" Approach.binding recorderState).1] ∧
    (measureTime "op" "Simple SELECT" "d" "q" Approach.binding
      recorderState).1.duration = 2 - 0 ∧
    0 ≤ (measureTime "op" "Simple SELECT" "d" "q" Approach.binding
      recorderState).1.duration ∧
    (measureTime "op" "Simple SELECT" "d" "q" Approach.binding
      recorderState).1.success = true ∧
    (measureTime "op" "Simple SELECT" "d" "q" Approach.binding
      recorderState).1.error = none := by
  have h := measureTime_spec "op" "Simple SELECT" "d" "q" Approach.binding recorderState
    0 2 [] rfl (by decide)
  exact ⟨h.1, h.2.1, h.2.2.1, (h.2.2.2.1 none rfl).1, (h.2.2.2.1 none rfl).2.1⟩

/-- C4 (amended): operations of the six query suites run through the
recorder and never escalate — `runQueryBenchmarks` cannot fail — so
`runFullBenchmark` returns the report of the final log whenever the
direct (unrecorded) database calls of warmup, seeding and cleanup all
succeed; a failed direct call in those phases escalates to the caller
with no report (see the counterexample). -/
theorem runFullBenchmark_policy (userCount queryIterations : Nat) (s s1 s2 s4 : BState)
    (h1 : runWarmup { s with results := [] } = Except.ok s1)
    (h2 : seedData userCount s1 = Except.ok s2)
    (h3 : cleanDatabase (runQueryBenchmarks queryIterations s2) = Except.ok s4) :
    runFullBenchmark userCount queryIterations s =
      Except.ok (generateReport s4.results, s4) := by
  simp only [runFullBenchmark, h1, h2, h3]

/-- Counterexample to C4 as stated: a failed warmup operation is not
recorded as a failed sample — it escalates and `runFullBenchmark` returns
no report. -/
theorem runFullBenchmark_warmup_failure :
    runFullBenchmark 10 1
      { results := []
        world := { dbOutcomes := [DbOutcome.err "boom"], clock := [] } } =
      Except.error "boom" :=
  rfl

/-- Witness for C4 (amended): with 14 successful direct outcomes in
store, a run with `userCount = 0` and zero iterations completes and
returns the report of the (empty) final log. -/
theorem runFullBenchmark_policy_witness :
    runFullBenchmark 0 0 (okState 14) =
      Except.ok (generateReport (okState 0).results, okState 0) :=
  runFullBenchmark_policy 0 0 (okState 14) (okState 4) (okState 2) (okState 0) rfl rfl rfl

end D1Bench
